import Mathlib

/-!
Verification of the ocap-dcv recording orchestration layer.

Shallow embedding, in Lean 4, of the timestamp-correction logic
(`gst_sample_postprocess.get_frame_time_ns`, the buffer-probe callback of
`omnimodal/appsink_recorder.AppsinkRecorder`), the pipeline lifecycle
helpers (`gst_lifecycle.try_set_state`, `gst_lifecycle.wait_for_message`,
`gst_runner.BaseGstPipelineRunner`), and the resource/health/output-file
management of `recorder.py` (`check_resources_health`,
`ensure_output_files_ready`, `setup_resources`, and the `stop` command).

Machine integers of the source (GStreamer `guint64` clock values) are
modelled as `Nat`; Python's unbounded signed arithmetic on their
differences is modelled as `Int`.
-/

namespace OcapDcv

/-! ## Frame timestamp correction (`gst/utils/gst_sample_postprocess.py`) -/

/-- GStreamer's "no timestamp" sentinel `Gst.CLOCK_TIME_NONE`,
the largest `guint64` value. -/
def GST_CLOCK_TIME_NONE : Nat := 18446744073709551615

/-- One GStreamer millisecond (`Gst.MSECOND`), in nanoseconds. -/
def GST_MSECOND : Int := 1000000

/-- The dictionary returned by `get_frame_time_ns`:
`dict(frame_time_ns=..., latency=...)`. -/
structure FrameTimeInfo where
  frame_time_ns : Int
  latency : Int
deriving DecidableEq, Repr

/-- Embedding of `get_frame_time_ns(sample, pipeline)`.

The sample's buffer presentation timestamp `sample.get_buffer().pts`
becomes `pts`; the pipeline clock reading `clock.get_time()` becomes
`clock_time`; `pipeline.get_base_time()` becomes `base_time`; the wall
clock `time.time_ns()` read inside the call becomes `wall_clock_now_ns`. -/
def get_frame_time_ns (pts clock_time base_time : Nat)
    (wall_clock_now_ns : Int) : FrameTimeInfo :=
  if pts = GST_CLOCK_TIME_NONE then
    { frame_time_ns := wall_clock_now_ns, latency := 0 }
  else
    let elapsed : Int := (clock_time : Int) - (base_time : Int)
    let latency : Int := elapsed - (pts : Int)
    { frame_time_ns := wall_clock_now_ns - latency, latency := latency }

/-! ## The appsink recorder's buffer probe
(`gst/omnimodal/appsink_recorder.py`) -/

/-- The fields of the `ScreenCaptured` event built inside
`buffer_probe_callback` that depend on timing: `utc_ns` and the
`pts_ns` stored in the `MediaRef`. -/
structure ScreenCapturedEvent where
  utc_ns : Int
  media_pts_ns : Nat
deriving DecidableEq, Repr

/-- Everything observable that `buffer_probe_callback` computes from the
clocks: the emitted event, the latency value, and whether the
high-latency warning fires. -/
structure ProbeOutcome where
  event : ScreenCapturedEvent
  latency : Int
  high_latency_warning : Bool
deriving DecidableEq, Repr

/-- Embedding of `AppsinkRecorder`'s `buffer_probe_callback(pad, info)`.

`buf.pts` becomes `buf_pts`; `clock.get_time()` becomes `clock_time`;
`self.pipeline.get_base_time()` becomes `base_time`; the wall clock
`time.time_ns()` read at the top of the callback becomes
`wall_clock_now_ns`.  The callback stores that wall-clock reading in
`frame_time_ns`, computes `latency = elapsed - buf.pts` and uses it for
the `> 100 * Gst.MSECOND` warning, then builds
`ScreenCaptured(utc_ns=frame_time_ns, media_ref=MediaRef(..., pts_ns=buf.pts))`. -/
def buffer_probe_callback (buf_pts clock_time base_time : Nat)
    (wall_clock_now_ns : Int) : ProbeOutcome :=
  let frame_time_ns : Int := wall_clock_now_ns
  let elapsed : Int := (clock_time : Int) - (base_time : Int)
  let latency : Int := elapsed - (buf_pts : Int)
  { event := { utc_ns := frame_time_ns, media_pts_ns := buf_pts }
    latency := latency
    high_latency_warning := decide (100 * GST_MSECOND < latency) }

/-! ## Health monitor (`recorder.py`, `check_resources_health`) -/

/-- Embedding of `check_resources_health(resources)`.

Each `(resource, name)` pair is represented by the value of
`resource.is_alive()` paired with its name; the function is the list
comprehension `[name for resource, name in resources if not resource.is_alive()]`. -/
def check_resources_health : List (Bool × String) → List String
  | [] => []
  | (alive, name) :: rest =>
    if !alive then name :: check_resources_health rest
    else check_resources_health rest

/-! ## Pipeline state-change helpers (`gst/utils/gst_lifecycle.py`) -/

/-- The values `Gst.Element.set_state` can return. -/
inductive StateChangeReturn
  | SUCCESS
  | ASYNC
  | FAILURE
  | NO_PREROLL
deriving DecidableEq, Repr

/-- The message kinds the code filters the bus for. -/
inductive GstMessageType
  | ERROR
  | ASYNC_DONE
  | EOS
deriving DecidableEq, Repr

/-- A bus message: an error notification carries the parsed
`(err, debug)` pair, an async-done / EOS message carries nothing. -/
inductive GstMessage
  | error (err debug : String)
  | async_done
  | eos
deriving DecidableEq, Repr

/-- The observable behaviour of `bus.timed_pop_filtered(Gst.SECOND * t, mtype)`:
for each message type and timeout (in seconds), the message popped within
that window, if any. -/
structure GstBus where
  pop_in_window : GstMessageType → ℚ → Option GstMessage

/-- The timeout default `timeout: float = 3.0` shared by `try_set_state`
and `wait_for_message`. -/
def default_state_timeout : ℚ := 3

/-- The distinct failures `try_set_state` can raise: the spec's
`PipelineStateError` (synchronous failure, carrying the error message
popped within the timeout window, if any) and
`PipelineStateTimeoutError` (the awaited completion message never
arrived). -/
inductive PipelineError
  | stateError (surfaced : Option GstMessage)
  | stateTimeout
deriving DecidableEq, Repr

/-- Embedding of `wait_for_message(pipeline, message, timeout)`: pop the
requested message type from the bus with the given timeout; raise if
nothing arrived. -/
def wait_for_message (bus : GstBus) (mtype : GstMessageType) (timeout : ℚ) :
    Except PipelineError GstMessage :=
  match bus.pop_in_window mtype timeout with
  | some m => Except.ok m
  | none => Except.error PipelineError.stateTimeout

/-- Embedding of `try_set_state(pipeline, state, timeout)`.

`pipeline.set_state(state)` is abstracted by its return value `ret`.
On `FAILURE` the code pops an `ERROR` message (surfacing it in the log)
and raises; on `ASYNC` it calls `wait_for_message(..., ASYNC_DONE, timeout)`;
otherwise it returns `ret`. -/
def try_set_state (ret : StateChangeReturn) (bus : GstBus) (timeout : ℚ) :
    Except PipelineError StateChangeReturn :=
  match ret with
  | StateChangeReturn.FAILURE =>
    Except.error (PipelineError.stateError (bus.pop_in_window GstMessageType.ERROR timeout))
  | StateChangeReturn.ASYNC =>
    match wait_for_message bus GstMessageType.ASYNC_DONE timeout with
    | Except.ok _ => Except.ok StateChangeReturn.ASYNC
    | Except.error e => Except.error e
  | r => Except.ok r

/-! ## Pipeline runner (`gst/gst_runner/gst_runner.py`,
`BaseGstPipelineRunner`) -/

/-- GStreamer element states relevant to the runner. -/
inductive GstState
  | NULL
  | READY
  | PAUSED
  | PLAYING
deriving DecidableEq, Repr

/-- The observable state of a `BaseGstPipelineRunner` after
`on_configure`: the `_is_cleaned_up` flag, whether the GLib main loop is
running, the pipeline's element state, and trace counters for the side
effects the runner performs on the pipeline (`send_event(new_eos())`
calls, `main_loop.quit()` calls, `set_state(NULL)` calls). -/
structure RunnerState where
  is_cleaned_up : Bool
  main_loop_running : Bool
  pipeline_state : GstState
  eos_events_sent : Nat
  quit_calls : Nat
  null_transitions : Nat
deriving DecidableEq, Repr

namespace BaseGstPipelineRunner

/-- The runner state right after `on_configure` (which sets
`self._is_cleaned_up = False` and builds the pipeline, still in NULL). -/
def on_configure : RunnerState :=
  { is_cleaned_up := false
    main_loop_running := false
    pipeline_state := GstState.NULL
    eos_events_sent := 0
    quit_calls := 0
    null_transitions := 0 }

/-- Embedding of `BaseGstPipelineRunner.stop`: if not yet cleaned up,
send an EOS event downstream; otherwise do nothing.  The pipeline's
element state is never touched here. -/
def stop (s : RunnerState) : RunnerState :=
  if !s.is_cleaned_up then
    { s with eos_events_sent := s.eos_events_sent + 1 }
  else s

/-- Embedding of `BaseGstPipelineRunner.cleanup`: if the
`_is_cleaned_up` flag is not set, quit the main loop and force the
pipeline to NULL; in every case, set the flag afterwards. -/
def cleanup (s : RunnerState) : RunnerState :=
  let s1 :=
    if !s.is_cleaned_up then
      { s with
        main_loop_running := false
        quit_calls := s.quit_calls + 1
        pipeline_state := GstState.NULL
        null_transitions := s.null_transitions + 1 }
    else s
  { s1 with is_cleaned_up := true }

/-- Embedding of `BaseGstPipelineRunner._loop` followed by the
`try/finally` of `loop`: `_loop` calls
`try_set_state(self.pipeline, PLAYING)` (default timeout) and, if that
succeeded, runs the GLib main loop until an EOS or ERROR bus message
makes `on_message` quit it; `loop` invokes `cleanup` on every exit path
(normal return or a raised `PipelineError`) and propagates the error. -/
def loop (s : RunnerState) (ret : StateChangeReturn) (bus : GstBus) :
    RunnerState × Option PipelineError :=
  match try_set_state ret bus default_state_timeout with
  | Except.ok _ =>
    (cleanup { s with pipeline_state := GstState.PLAYING, main_loop_running := false }, none)
  | Except.error e => (cleanup s, some e)

end BaseGstPipelineRunner

/-! ## Output-file readiness (`recorder.py`, `ensure_output_files_ready`) -/

/-- The filesystem facts `ensure_output_files_ready` observes and
mutates: existence of the target's parent directory, of the
structured-log (`.mcap`) variant, and of the media (`.mkv`) variant. -/
structure FsState where
  parent_exists : Bool
  mcap_exists : Bool
  mkv_exists : Bool
deriving DecidableEq, Repr

/-- The outcome of `ensure_output_files_ready`: either the returned
structured-log path together with the resulting filesystem state, or a
`typer.Abort` (with the filesystem state left behind). -/
inductive EnsureOutcome
  | ok (returned : String) (fs : FsState)
  | abort (fs : FsState)
deriving DecidableEq, Repr

/-- Embedding of `ensure_output_files_ready(file_location)`.

`stem` is the suffix-free target path; `file_location.with_suffix(".mcap")`
and `.with_suffix(".mkv")` are modelled as `stem ++ ".mcap"` and
`stem ++ ".mkv"`, their existence tracked by `fs`.  The operator's
answer to `typer.confirm` is `confirm_delete`.  Faithful to the source,
the parent directory is created (`mkdir(parents=True, exist_ok=True)`)
before the existence check on either variant; on an existing variant the
operator is prompted, a decline raises `typer.Abort()`, a confirmation
unlinks both variants (`missing_ok=True`) and the `.mcap` path is
returned. -/
def ensure_output_files_ready (stem : String) (fs : FsState)
    (confirm_delete : Bool) : EnsureOutcome :=
  let fs1 := if !fs.parent_exists then { fs with parent_exists := true } else fs
  if fs1.mcap_exists || fs1.mkv_exists then
    if !confirm_delete then EnsureOutcome.abort fs1
    else EnsureOutcome.ok (stem ++ ".mcap")
      { fs1 with mcap_exists := false, mkv_exists := false }
  else EnsureOutcome.ok (stem ++ ".mcap") fs1

/-! ## Resource setup and teardown (`recorder.py`, `setup_resources`) -/

/-- The externally visible calls `setup_resources` makes on its
producers, in order. -/
inductive RAction
  | start (name : String)
  | startFail (name : String)
  | stopJoin (name : String)
deriving DecidableEq, Repr

/-- The start loop of `setup_resources`:
`for resource, name in resources: resource.start()`.
`startFails name = true` means that producer's `start()` raises.
Returns the trace of calls and whether an exception propagated. -/
def start_phase (startFails : String → Bool) :
    List String → List RAction × Bool
  | [] => ([], false)
  | p :: rest =>
    if startFails p then ([RAction.startFail p], true)
    else
      let r := start_phase startFails rest
      (RAction.start p :: r.1, r.2)

/-- Embedding of the `setup_resources` context manager's effect on the
producers, as a trace.  The start loop runs before the `try:` block, so
when a `start()` raises the exception propagates out of the generator
before the `try/finally` is entered and no teardown runs; only when
every start succeeded does the `finally:` block, on context exit, stop
and join each producer in reverse declaration order. -/
def setup_resources (producers : List String) (startFails : String → Bool) :
    List RAction × Bool :=
  let r := start_phase startFails producers
  if r.2 then r
  else (r.1 ++ producers.reverse.map RAction.stopJoin, false)

/-! ## The `stop` command (`recorder.py`) -/

/-- The signal the `stop` command sends (Windows `signal.CTRL_C_EVENT`,
the interrupt used to reach the recording process's
`KeyboardInterrupt` handler). -/
inductive OsSignal
  | ctrl_c_event
deriving DecidableEq, Repr

/-- The world the `stop` command touches: the content of the persisted
process-id file (none when absent) and the trace of signals sent. -/
structure StopEnv where
  pid_file_content : Option Nat
  signals_sent : List (Nat × OsSignal)
deriving DecidableEq, Repr

/-- Modelled from the spec: the companion `stop` command of the
recorder CLI.  Its implementation is not among the provided sources
(`src/owa/ocap/recorder.py` does not define `stop`; only
`src/tests/test_recorder.py` imports and exercises it).  Following the
spec — "signals a running recording process via its persisted
process-id file and an interrupt signal, then removes that file" — it
reads the process id recorded in the pid file, sends that process the
interrupt signal (`os.kill(pid, signal.CTRL_C_EVENT)`), and removes the
pid file.  It is defined on environments where the pid file is present
(a running recording). -/
def stop_command (env : StopEnv) : Option StopEnv :=
  match env.pid_file_content with
  | some pid =>
    some { pid_file_content := none
           signals_sent := env.signals_sent ++ [(pid, OsSignal.ctrl_c_event)] }
  | none => none

/-! ## Helper lemmas -/

theorem check_health_all_alive (rs : List (Bool × String))
    (h : ∀ p ∈ rs, p.1 = true) : check_resources_health rs = [] := by
  induction rs with
  | nil => rfl
  | cons hd tl ih =>
    obtain ⟨a, n⟩ := hd
    have ha : a = true := h (a, n) (List.mem_cons_self _ _)
    subst ha
    have htl := ih (fun p hp => h p (List.mem_cons_of_mem _ hp))
    simpa [check_resources_health] using htl

theorem start_phase_all_ok (startFails : String → Bool) (ps : List String)
    (h : ∀ p ∈ ps, startFails p = false) :
    start_phase startFails ps = (ps.map RAction.start, false) := by
  induction ps with
  | nil => rfl
  | cons hd tl ih =>
    have hh : startFails hd = false := h hd (List.mem_cons_self _ _)
    have htl := ih (fun p hp => h p (List.mem_cons_of_mem _ hp))
    simp [start_phase, hh, htl]

theorem start_phase_fails (startFails : String → Bool) (good : List String)
    (bad : String) (rest : List String)
    (hg : ∀ p ∈ good, startFails p = false) (hb : startFails bad = true) :
    start_phase startFails (good ++ bad :: rest) =
      (good.map RAction.start ++ [RAction.startFail bad], true) := by
  induction good with
  | nil => simp [start_phase, hb]
  | cons hd tl ih =>
    have hh : startFails hd = false := hg hd (List.mem_cons_self _ _)
    have htl := ih (fun p hp => hg p (List.mem_cons_of_mem _ hp))
    simp [start_phase, hh, htl]

theorem cleanup_is_cleaned (s : RunnerState) :
    (BaseGstPipelineRunner.cleanup s).is_cleaned_up = true := rfl

theorem cleanup_of_cleaned (s : RunnerState) (h : s.is_cleaned_up = true) :
    BaseGstPipelineRunner.cleanup s = s := by
  obtain ⟨c, m, p, e, q, n⟩ := s
  simp only at h
  subst h
  simp [BaseGstPipelineRunner.cleanup]

theorem loop_fst_cleaned (s : RunnerState) (ret : StateChangeReturn)
    (bus : GstBus) :
    (BaseGstPipelineRunner.loop s ret bus).1.is_cleaned_up = true := by
  unfold BaseGstPipelineRunner.loop
  cases try_set_state ret bus default_state_timeout <;>
    exact cleanup_is_cleaned _

/-! ## Claims about the frame timestamp correction -/

/-- Claim C2: for a sample whose presentation timestamp is not the
"no timestamp" sentinel, `get_frame_time_ns` returns
`latency = (clock_time - pipeline_base_time) - presentation_time` and
`frame_time_ns = wall_clock_now_ns - latency` (in particular, with
presentation time 1_000_000_000ns, running time 1_050_000_000ns and wall
clock T it returns T - 50_000_000ns); for a sample carrying the sentinel
it returns `frame_time_ns = wall_clock_now_ns` and `latency = 0`. -/
theorem C2_get_frame_time_ns_correct :
    (∀ (pts clock_time base_time : Nat) (T : Int),
      pts ≠ GST_CLOCK_TIME_NONE →
      get_frame_time_ns pts clock_time base_time T =
        { frame_time_ns := T - (((clock_time : Int) - (base_time : Int)) - (pts : Int))
          latency := ((clock_time : Int) - (base_time : Int)) - (pts : Int) }) ∧
    (∀ T : Int, get_frame_time_ns 1000000000 1050000000 0 T =
      { frame_time_ns := T - 50000000, latency := 50000000 }) ∧
    (∀ (clock_time base_time : Nat) (T : Int),
      get_frame_time_ns GST_CLOCK_TIME_NONE clock_time base_time T =
        { frame_time_ns := T, latency := 0 }) := by
  refine ⟨?_, ?_, ?_⟩
  · intro pts ct bt T h
    simp [get_frame_time_ns, h]
  · intro T
    have h : (1000000000 : Nat) ≠ GST_CLOCK_TIME_NONE := by decide
    simp [get_frame_time_ns, h]
  · intro ct bt T
    simp [get_frame_time_ns]

/-- Witness for C2: a concrete non-sentinel sample, evaluated. -/
theorem C2_witness :
    (1000000000 : Nat) ≠ GST_CLOCK_TIME_NONE ∧
    get_frame_time_ns 1000000000 1050000000 0 7 =
      { frame_time_ns := 7 - (((1050000000 : Int) - (0 : Int)) - (1000000000 : Int))
        latency := ((1050000000 : Int) - (0 : Int)) - (1000000000 : Int) } :=
  ⟨by decide, C2_get_frame_time_ns_correct.1 1000000000 1050000000 0 7 (by decide)⟩

/-- Claim C1, counterexample: at buf_pts = 1_000_000_000ns,
clock_time = 2_000_000_000ns, base_time = 0 and wall clock 0, the
callback's pipeline latency is 1_000_000_000ns, yet the emitted event's
utc_ns is the wall clock itself (0), not wall clock minus latency
(-1_000_000_000): the claimed equality fails. -/
theorem C1_counterexample :
    (buffer_probe_callback 1000000000 2000000000 0 0).latency = 1000000000 ∧
    (buffer_probe_callback 1000000000 2000000000 0 0).event.utc_ns = 0 ∧
    (buffer_probe_callback 1000000000 2000000000 0 0).event.utc_ns ≠
      0 - (buffer_probe_callback 1000000000 2000000000 0 0).latency := by
  refine ⟨by decide, by decide, by decide⟩

/-- Claim C1 (amended): for every frame delivered to the recorder's
frame-arrival callback, the emitted event's utc_ns equals the wall clock
read once at callback entry — the pipeline latency is NOT subtracted;
the latency (elapsed running time minus the buffer's presentation time)
is computed once inside the callback and used only for the
high-latency (> 100ms) warning. -/
theorem C1_amended_probe_timestamp :
    ∀ (buf_pts clock_time base_time : Nat) (T : Int),
      (buffer_probe_callback buf_pts clock_time base_time T).event.utc_ns = T ∧
      (buffer_probe_callback buf_pts clock_time base_time T).event.media_pts_ns = buf_pts ∧
      (buffer_probe_callback buf_pts clock_time base_time T).latency =
        ((clock_time : Int) - (base_time : Int)) - (buf_pts : Int) ∧
      ((buffer_probe_callback buf_pts clock_time base_time T).high_latency_warning = true ↔
        100 * GST_MSECOND < ((clock_time : Int) - (base_time : Int)) - (buf_pts : Int)) := by
  intro p ct bt T
  refine ⟨rfl, rfl, rfl, ?_⟩
  simp [buffer_probe_callback]

/-! ## Claims about the health monitor -/

/-- Claim C9: `check_resources_health` is a pure function of each
resource's `is_alive()` value: the empty list yields the empty list, and
a list in which exactly one resource is dead yields exactly that
resource's name. -/
theorem C9_check_resources_health_correct :
    check_resources_health [] = [] ∧
    (∀ (xs ys : List (Bool × String)) (n : String),
      (∀ p ∈ xs, p.1 = true) → (∀ p ∈ ys, p.1 = true) →
      check_resources_health (xs ++ (false, n) :: ys) = [n]) := by
  constructor
  · rfl
  · intro xs ys n hxs hys
    induction xs with
    | nil =>
      simp [check_resources_health, check_health_all_alive ys hys]
    | cons hd tl ih =>
      obtain ⟨a, m⟩ := hd
      have ha : a = true := hxs (a, m) (List.mem_cons_self _ _)
      subst ha
      have htl := ih (fun p hp => hxs p (List.mem_cons_of_mem _ hp))
      simpa [check_resources_health] using htl

/-- Witness for C9: three resources, exactly the middle one dead. -/
theorem C9_witness :
    check_resources_health [(true, "recorder"), (false, "mouse listener"), (true, "keyboard listener")] =
      ["mouse listener"] := by
  have h := C9_check_resources_health_correct.2 [(true, "recorder")]
    [(true, "keyboard listener")] "mouse listener" (by simp) (by simp)
  simpa using h

/-! ## Claims about resource setup and teardown -/

/-- Claim C3, counterexample: with producers ["a", "b"] where the start
of "b" raises, `setup_resources` starts "a", fails at "b" and lets the
failure propagate, but performs no teardown at all: the trace contains
no stopJoin action for the already-started "a". -/
theorem C3_counterexample :
    setup_resources ["a", "b"] (fun n => n == "b") =
      ([RAction.start "a", RAction.startFail "b"], true) ∧
    RAction.stopJoin "a" ∉ (setup_resources ["a", "b"] (fun n => n == "b")).1 := by
  refine ⟨by decide, by decide⟩

/-- Claim C3 (amended): `setup_resources` starts producers in
declaration order and a start failure aborts the remaining starts and
propagates, but no teardown of the already-started producers happens
before the failure propagates (the start loop runs before the
try/finally block, so the finally block is never entered);
reverse-order teardown of all producers runs only when every start
succeeded, at context exit. -/
theorem C3_amended_setup_resources :
    (∀ (good : List String) (bad : String) (rest : List String)
        (startFails : String → Bool),
      (∀ p ∈ good, startFails p = false) → startFails bad = true →
      setup_resources (good ++ bad :: rest) startFails =
        (good.map RAction.start ++ [RAction.startFail bad], true)) ∧
    (∀ (producers : List String) (startFails : String → Bool),
      (∀ p ∈ producers, startFails p = false) →
      setup_resources producers startFails =
        (producers.map RAction.start ++ producers.reverse.map RAction.stopJoin,
         false)) := by
  constructor
  · intro good bad rest startFails hg hb
    simp [setup_resources, start_phase_fails startFails good bad rest hg hb]
  · intro ps startFails h
    simp [setup_resources, start_phase_all_ok startFails ps h]

/-- Witness for C3: three producers, the last start raises. -/
theorem C3_witness :
    setup_resources ["a", "b", "c"] (fun n => n == "c") =
      ([RAction.start "a", RAction.start "b", RAction.startFail "c"], true) := by
  have h := C3_amended_setup_resources.1 ["a", "b"] "c" []
    (fun n => n == "c") (by decide) (by decide)
  simpa using h

/-! ## Claims about the stop command -/

/-- Claim C4: given the persisted process-id file of a running
recording, the companion stop operation reads the recorded process id,
sends that process an interrupt signal, and removes the process-id
file.  (`stop_command` is modelled from the spec: the implementation is
absent from the provided sources, only its test is present.) -/
theorem C4_stop_command_correct :
    ∀ (env : StopEnv) (pid : Nat), env.pid_file_content = some pid →
      stop_command env =
        some { pid_file_content := none
               signals_sent := env.signals_sent ++ [(pid, OsSignal.ctrl_c_event)] } := by
  intro env pid h
  simp [stop_command, h]

/-- Witness for C4: pid 123, as exercised by the repository's test. -/
theorem C4_witness :
    stop_command { pid_file_content := some 123, signals_sent := [] } =
      some { pid_file_content := none
             signals_sent := [(123, OsSignal.ctrl_c_event)] } :=
  C4_stop_command_correct { pid_file_content := some 123, signals_sent := [] } 123 rfl

/-! ## Claims about the pipeline runner -/

/-- Claim C5, counterexample: after one stop() the freshly configured
runner is in its "stopping" phase (EOS sent, not yet cleaned up); a
second stop() in that phase is not a no-op — it sends a second EOS
event, changing the observable state. -/
theorem C5_counterexample :
    BaseGstPipelineRunner.stop
        (BaseGstPipelineRunner.stop BaseGstPipelineRunner.on_configure) ≠
      BaseGstPipelineRunner.stop BaseGstPipelineRunner.on_configure := by
  decide

/-- Claim C5 (amended): stop() requests graceful termination by sending
an end-of-stream event downstream and never forces the pipeline's state
(no NULL transition); it is a no-op once cleanup has run — the guard is
the already-cleaned flag — but a second stop() while the pipeline is
still stopping (before cleanup) re-sends the EOS event. -/
theorem C5_amended_stop :
    ∀ s : RunnerState,
      BaseGstPipelineRunner.stop s =
        (if s.is_cleaned_up then s
         else { s with eos_events_sent := s.eos_events_sent + 1 }) ∧
      (BaseGstPipelineRunner.stop s).pipeline_state = s.pipeline_state ∧
      (BaseGstPipelineRunner.stop s).null_transitions = s.null_transitions := by
  intro s
  obtain ⟨c, m, p, e, q, n⟩ := s
  cases c <;> simp [BaseGstPipelineRunner.stop]

/-- Claim C6: cleanup() twice in succession yields the same terminal
state as once, the second call raises nothing and repeats neither the
main-loop quit nor the NULL transition (guarded by the already-cleaned
flag), and loop() invokes cleanup() on every exit path of the run loop,
normal or exceptional. -/
theorem C6_cleanup_idempotent :
    (∀ s : RunnerState,
      BaseGstPipelineRunner.cleanup (BaseGstPipelineRunner.cleanup s) =
        BaseGstPipelineRunner.cleanup s) ∧
    (∀ s : RunnerState,
      (BaseGstPipelineRunner.cleanup (BaseGstPipelineRunner.cleanup s)).quit_calls =
        (BaseGstPipelineRunner.cleanup s).quit_calls ∧
      (BaseGstPipelineRunner.cleanup (BaseGstPipelineRunner.cleanup s)).null_transitions =
        (BaseGstPipelineRunner.cleanup s).null_transitions) ∧
    (∀ (s : RunnerState) (ret : StateChangeReturn) (bus : GstBus),
      (BaseGstPipelineRunner.loop s ret bus).1.is_cleaned_up = true ∧
      BaseGstPipelineRunner.cleanup (BaseGstPipelineRunner.loop s ret bus).1 =
        (BaseGstPipelineRunner.loop s ret bus).1) := by
  refine ⟨?_, ?_, ?_⟩
  · intro s
    exact cleanup_of_cleaned _ (cleanup_is_cleaned s)
  · intro s
    rw [cleanup_of_cleaned _ (cleanup_is_cleaned s)]
    exact ⟨rfl, rfl⟩
  · intro s ret bus
    exact ⟨loop_fst_cleaned s ret bus,
      cleanup_of_cleaned _ (loop_fst_cleaned s ret bus)⟩

/-! ## Claims about output-file readiness -/

/-- Claim C7: when the structured-log (.mcap) variant of the target path
already exists, a confirmed deletion removes both the structured-log and
media (.mkv) variants and returns the structured-log path, while a
declined prompt raises an abort and leaves both files on disk
unchanged. -/
theorem C7_ensure_output_files_ready_existing :
    ∀ (stem : String) (fs : FsState), fs.mcap_exists = true →
      (ensure_output_files_ready stem fs true =
        EnsureOutcome.ok (stem ++ ".mcap")
          { parent_exists := true, mcap_exists := false, mkv_exists := false }) ∧
      (ensure_output_files_ready stem fs false =
        EnsureOutcome.abort
          { parent_exists := true, mcap_exists := fs.mcap_exists
            mkv_exists := fs.mkv_exists }) := by
  intro stem fs h
  obtain ⟨p, c, k⟩ := fs
  simp only at h
  subst h
  cases p <;> simp [ensure_output_files_ready]

/-- Witness for C7: both variants present, confirmed and declined. -/
theorem C7_witness :
    (ensure_output_files_ready "recording"
        { parent_exists := true, mcap_exists := true, mkv_exists := true } true =
      EnsureOutcome.ok ("recording" ++ ".mcap")
        { parent_exists := true, mcap_exists := false, mkv_exists := false }) ∧
    (ensure_output_files_ready "recording"
        { parent_exists := true, mcap_exists := true, mkv_exists := true } false =
      EnsureOutcome.abort
        { parent_exists := true, mcap_exists := true, mkv_exists := true }) := by
  have h := C7_ensure_output_files_ready_existing "recording"
    { parent_exists := true, mcap_exists := true, mkv_exists := true } rfl
  exact ⟨h.1, h.2⟩

/-- Claim C10: the overwrite prompt — and, on confirmation, the deletion
of both variants — triggers when the media (.mkv) variant exists even if
the structured-log (.mcap) variant does not; and the missing parent
directory of the target path is created before any existence check, so
the operation's outcome never depends on (and never fails for) a
nonexistent parent directory. -/
theorem C10_ensure_output_files_ready_mkv_only :
    (∀ (stem : String) (fs : FsState), fs.mkv_exists = true →
      (ensure_output_files_ready stem fs false =
        EnsureOutcome.abort
          { parent_exists := true, mcap_exists := fs.mcap_exists
            mkv_exists := true }) ∧
      (ensure_output_files_ready stem fs true =
        EnsureOutcome.ok (stem ++ ".mcap")
          { parent_exists := true, mcap_exists := false, mkv_exists := false })) ∧
    (∀ (stem : String) (fs : FsState) (confirm_delete : Bool),
      ensure_output_files_ready stem fs confirm_delete =
        ensure_output_files_ready stem { fs with parent_exists := true }
          confirm_delete) := by
  constructor
  · intro stem fs h
    obtain ⟨p, c, k⟩ := fs
    simp only at h
    subst h
    cases p <;> cases c <;> simp [ensure_output_files_ready]
  · intro stem fs cd
    obtain ⟨p, c, k⟩ := fs
    cases p <;> simp [ensure_output_files_ready]

/-- Witness for C10: the media variant exists while the structured-log
variant does not, and the parent directory is initially missing. -/
theorem C10_witness :
    (ensure_output_files_ready "recording"
        { parent_exists := false, mcap_exists := false, mkv_exists := true } false =
      EnsureOutcome.abort
        { parent_exists := true, mcap_exists := false, mkv_exists := true }) ∧
    (ensure_output_files_ready "recording"
        { parent_exists := false, mcap_exists := false, mkv_exists := true } true =
      EnsureOutcome.ok ("recording" ++ ".mcap")
        { parent_exists := true, mcap_exists := false, mkv_exists := false }) :=
  C10_ensure_output_files_ready_mkv_only.1 "recording"
    { parent_exists := false, mcap_exists := false, mkv_exists := true } rfl

/-! ## Claims about pipeline state changes -/

/-- Claim C8: a state-change request that completes asynchronously makes
the caller block, with the default 3-second timeout, for the completion
(ASYNC_DONE) notification, raising the state-timeout error when none
arrives within the window; a synchronously failing request raises the
state error, surfacing the most recent error notification popped within
the timeout window, if any. -/
theorem C8_try_set_state_correct :
    default_state_timeout = 3 ∧
    (∀ (bus : GstBus) (t : ℚ) (m : GstMessage),
      bus.pop_in_window GstMessageType.ASYNC_DONE t = some m →
      try_set_state StateChangeReturn.ASYNC bus t =
        Except.ok StateChangeReturn.ASYNC) ∧
    (∀ (bus : GstBus) (t : ℚ),
      bus.pop_in_window GstMessageType.ASYNC_DONE t = none →
      try_set_state StateChangeReturn.ASYNC bus t =
        Except.error PipelineError.stateTimeout) ∧
    (∀ (bus : GstBus) (t : ℚ),
      try_set_state StateChangeReturn.FAILURE bus t =
        Except.error (PipelineError.stateError
          (bus.pop_in_window GstMessageType.ERROR t))) := by
  refine ⟨rfl, ?_, ?_, ?_⟩
  · intro bus t m h
    simp [try_set_state, wait_for_message, h]
  · intro bus t h
    simp [try_set_state, wait_for_message, h]
  · intro bus t
    rfl

/-- Witness for C8: a bus on which ASYNC_DONE arrives, and one on which
nothing arrives. -/
theorem C8_witness :
    (try_set_state StateChangeReturn.ASYNC
        { pop_in_window := fun _ _ => some GstMessage.async_done }
        default_state_timeout =
      Except.ok StateChangeReturn.ASYNC) ∧
    (try_set_state StateChangeReturn.ASYNC
        { pop_in_window := fun _ _ => none } default_state_timeout =
      Except.error PipelineError.stateTimeout) :=
  ⟨C8_try_set_state_correct.2.1 _ default_state_timeout GstMessage.async_done rfl,
   C8_try_set_state_correct.2.2.1 _ default_state_timeout rfl⟩

end OcapDcv
